import Mathlib

/-!
Verification of the COMBINE/OMEX archive & manifest subsystem of
biosimulators_simularium against its natural-language specification.

The Python sources embedded here are:
  * `biosimulators_simularium/utils/core.py` — `none_comparator`, `none_sorted`,
    `are_lists_equal`;
  * `biosimulators_simularium/archives/data_model.py` — the manifest data model
    (`CombineArchiveContent`, `CombineArchive`), the format registry tables
    (`CombineArchiveContentFormat`, `CombineArchiveContentFormatPattern`), the
    manifest codec (`CombineArchiveWriter.write_manifest`,
    `CombineArchiveReader.read_manifest`) and the archive service
    (`SpatialCombineArchive`).

The libcombine library, the `Config` object and the `FormatRegistry.resolve`
operation are not part of the sources; where they are needed they are modelled
from the specification, and each such definition says so in its doc comment.
-/

/-- Python exceptions that the embedded code can raise. -/
inductive PyErr where
  | valueError
  | attributeError
  | indexError
  deriving DecidableEq, Repr

/-- Python values handled by the generic comparator `none_comparator` of
`utils/core.py`: `None`, strings, booleans and tuples. -/
inductive PyVal where
  | none : PyVal
  | str : String → PyVal
  | bool : Bool → PyVal
  | tup : List PyVal → PyVal
  deriving Repr

mutual

/-- Decidable structural equality on `PyVal`, standing for Python's `==`. -/
def PyVal.decEq : (x y : PyVal) → Decidable (x = y)
  | .none, .none => isTrue rfl
  | .none, .str _ => isFalse (fun h => nomatch h)
  | .none, .bool _ => isFalse (fun h => nomatch h)
  | .none, .tup _ => isFalse (fun h => nomatch h)
  | .str _, .none => isFalse (fun h => nomatch h)
  | .str a, .str b =>
    if h : a = b then isTrue (by rw [h]) else isFalse (fun hh => h (by injection hh))
  | .str _, .bool _ => isFalse (fun h => nomatch h)
  | .str _, .tup _ => isFalse (fun h => nomatch h)
  | .bool _, .none => isFalse (fun h => nomatch h)
  | .bool _, .str _ => isFalse (fun h => nomatch h)
  | .bool a, .bool b =>
    if h : a = b then isTrue (by rw [h]) else isFalse (fun hh => h (by injection hh))
  | .bool _, .tup _ => isFalse (fun h => nomatch h)
  | .tup _, .none => isFalse (fun h => nomatch h)
  | .tup _, .str _ => isFalse (fun h => nomatch h)
  | .tup _, .bool _ => isFalse (fun h => nomatch h)
  | .tup xs, .tup ys =>
    match PyVal.decEqList xs ys with
    | isTrue h => isTrue (by rw [h])
    | isFalse h => isFalse (fun hh => h (by injection hh))
termination_by structural x => x

/-- Componentwise decidable equality on lists of `PyVal` (tuple equality). -/
def PyVal.decEqList : (xs ys : List PyVal) → Decidable (xs = ys)
  | [], [] => isTrue rfl
  | [], _ :: _ => isFalse (fun h => nomatch h)
  | _ :: _, [] => isFalse (fun h => nomatch h)
  | x :: xs, y :: ys =>
    match PyVal.decEq x y with
    | isFalse h => isFalse (fun hh => h (by injection hh))
    | isTrue h =>
      match PyVal.decEqList xs ys with
      | isTrue h' => isTrue (by rw [h, h'])
      | isFalse h' => isFalse (fun hh => h' (by injection hh))
termination_by structural xs => xs

end

instance : DecidableEq PyVal := PyVal.decEq

mutual

/-- Embeds `none_comparator(x, y)` of `utils/core.py` (lines 58–87).
`Option.none` stands for Python producing no integer: either the implicit
`return None` at the end, or the `TypeError` raised by `<` on mismatched
primitive types; neither occurs on the values this development compares. -/
def none_comparator (x y : PyVal) : Option Int :=
  if x = y then some 0
  else
    match x, y with
    | .tup xs, .tup ys =>
      if xs.length < ys.length then some (-1)
      else if ys.length < xs.length then some 1
      else noneComparatorZip xs ys
    | .tup _, _ => some 1
    | _, .tup _ => some (-1)
    | .none, _ => some (-1)
    | _, .none => some 1
    | .str a, .str b =>
      if a < b then some (-1) else if b < a then some 1 else Option.none
    | .bool a, .bool b =>
      if a < b then some (-1) else if b < a then some 1 else Option.none
    | _, _ => Option.none
termination_by structural x

/-- Embeds the `for x1, y1 in zip(x, y)` loop of `none_comparator`: the first
nonzero component comparison decides; an exhausted zip yields 0. -/
def noneComparatorZip (xs ys : List PyVal) : Option Int :=
  match xs, ys with
  | x :: xs', y :: ys' =>
    match none_comparator x y with
    | some 0 => noneComparatorZip xs' ys'
    | cmp => cmp
  | _, _ => some 0
termination_by structural xs

end

/-- Stable insertion of `x` into a list: `x` is placed immediately before the
first element `y` with `lt x y`, hence after any element comparing equal. -/
def pyInsert (lt : α → α → Bool) (x : α) : List α → List α
  | [] => [x]
  | y :: ys => if lt x y then x :: y :: ys else y :: pyInsert lt x ys

/-- Modelled from the spec: Python's builtin `sorted` is a stable sort driven by
`<` on the (wrapped) keys; it is modelled as a stable insertion sort, which
produces the same list as any stable sort for a strict weak order `lt`. -/
def pySorted (lt : α → α → Bool) (arr : List α) : List α :=
  arr.foldl (fun acc x => pyInsert lt x acc) []

/-- Embeds the `__lt__` of the `NoneComparator` wrapper produced by
`none_sort_key_gen` (`utils/core.py` lines 90–115): `none_comparator(a, b) < 0`. -/
def ncLt (kx ky : PyVal) : Bool :=
  match none_comparator kx ky with
  | some i => decide (i < 0)
  | Option.none => false

/-- Embeds `none_sorted(arr, key)` of `utils/core.py` (lines 118–127). -/
def none_sorted (key : α → PyVal) (arr : List α) : List α :=
  pySorted (fun a b => ncLt (key a) (key b)) arr

/-- Embeds `are_lists_equal(a, b)` of `utils/core.py` (lines 130–150).  The
element type's `to_tuple` projection and `is_equal` test are passed explicitly,
standing for the method calls `x.to_tuple()` and `a_el.is_equal(b_el)`. -/
def are_lists_equal (to_tup : α → PyVal) (is_eq : α → α → Bool) (a b : List α) : Bool :=
  if a.length ≠ b.length then false
  else
    ((none_sorted to_tup a).zip (none_sorted to_tup b)).all fun p => is_eq p.1 p.2

/-- Embeds `CombineArchiveContent` of `archives/data_model.py` (lines 210–250).
`master` defaults to `False` in the constructor and every construction in the
embedded code supplies a boolean, so it is modelled as `Bool`. -/
structure CombineArchiveContent where
  location : Option String := Option.none
  format : Option String := Option.none
  master : Bool := false
  deriving DecidableEq, Repr

/-- Embeds `CombineArchiveContent.to_tuple`: `(location, format, master)`. -/
def CombineArchiveContent.to_tuple (c : CombineArchiveContent) : PyVal :=
  .tup [c.location.elim PyVal.none PyVal.str, c.format.elim PyVal.none PyVal.str, .bool c.master]

/-- Embeds `CombineArchiveContent.is_equal`; the `__class__` check always holds
between two values of this one type. -/
def CombineArchiveContent.is_equal (c o : CombineArchiveContent) : Bool :=
  c.location == o.location && c.format == o.format && c.master == o.master

/-- Embeds `CombineArchive` of `archives/data_model.py` (lines 162–207). -/
structure CombineArchive where
  contents : List CombineArchiveContent := []
  deriving DecidableEq, Repr

/-- Embeds `CombineArchive.get_master_content` (lines 176–186): the loop that
appends every content whose `master` flag is set. -/
def CombineArchive.get_master_content (a : CombineArchive) : List CombineArchiveContent :=
  a.contents.foldl
    (fun master_content content =>
      if content.master then master_content ++ [content] else master_content) []

/-- Embeds `CombineArchive.is_equal` (lines 197–207): class check (always true
here) and `are_lists_equal` on the contents. -/
def CombineArchive.is_equal (a other : CombineArchive) : Bool :=
  are_lists_equal CombineArchiveContent.to_tuple CombineArchiveContent.is_equal
    a.contents other.contents

lemma get_master_content_foldl (l : List CombineArchiveContent)
    (init : List CombineArchiveContent) :
    l.foldl (fun acc c => if c.master then acc ++ [c] else acc) init
      = init ++ l.filter (fun c => c.master) := by
  induction l generalizing init with
  | nil => simp
  | cons c l ih =>
    by_cases h : c.master <;> simp [h, ih]

/-- C5: `get_master_content` returns exactly the entries whose `master` flag is
true, in their original manifest order (as many as are flagged); on the
scenario-A manifest `[(".", omex, false), ("model.txt", smoldyn, false),
("simulation.sedml", sedml, true)]` it returns exactly the
`simulation.sedml` entry. -/
theorem get_master_content_is_master_filter :
    (∀ a : CombineArchive,
      a.get_master_content = a.contents.filter (fun c => c.master)) ∧
    CombineArchive.get_master_content
      ⟨[⟨some ".", some "http://identifiers.org/combine.specifications/omex", false⟩,
        ⟨some "model.txt", some "http://purl.org/NET/mediatypes/text/smoldyn+plain", false⟩,
        ⟨some "simulation.sedml", some "http://identifiers.org/combine.specifications/sed-ml", true⟩]⟩
      = [⟨some "simulation.sedml", some "http://identifiers.org/combine.specifications/sed-ml", true⟩] := by
  constructor
  · intro a
    simpa using get_master_content_foldl a.contents []
  · rfl

/-! ### The null-tolerant order of §4.3, as the spec words it

The following `spec…` definitions are written from the specification text, not
from the code: "a total order where `null < any value`, and where two tuples
are compared lexicographically by their component null-tolerant order".  Claim
C4 compares the code's `is_equal`/`are_lists_equal`/`none_comparator` chain
against them. -/

/-- Spec-side comparison of one optional string component: `null` sorts before
any value, two present values compare by the string order. -/
def specCmpOptStr : Option String → Option String → Int
  | Option.none, Option.none => 0
  | Option.none, some _ => -1
  | some _, Option.none => 1
  | some a, some b => if a = b then 0 else if a < b then -1 else 1

/-- Spec-side comparison of the boolean `master` component (`false < true`). -/
def specCmpBool (a b : Bool) : Int :=
  if a = b then 0 else if a < b then -1 else 1

/-- Spec-side lexicographic comparison of the key `(location, format, master)`. -/
def specCmpContent (c d : CombineArchiveContent) : Int :=
  if specCmpOptStr c.location d.location ≠ 0 then specCmpOptStr c.location d.location
  else if specCmpOptStr c.format d.format ≠ 0 then specCmpOptStr c.format d.format
  else specCmpBool c.master d.master

/-- Spec-side sort of a contents list by the null-tolerant key. -/
def specSortedContents (l : List CombineArchiveContent) : List CombineArchiveContent :=
  pySorted (fun a b => decide (specCmpContent a b < 0)) l

lemma specCmpOptStr_self (x : Option String) : specCmpOptStr x x = 0 := by
  cases x <;> simp [specCmpOptStr]

lemma specCmpBool_self (a : Bool) : specCmpBool a a = 0 := by
  simp [specCmpBool]

lemma none_comparator_optStr (x y : Option String) :
    none_comparator (x.elim PyVal.none PyVal.str) (y.elim PyVal.none PyVal.str)
      = some (specCmpOptStr x y) := by
  cases x with
  | none =>
    cases y with
    | none => simp [none_comparator, specCmpOptStr]
    | some b => simp [none_comparator, specCmpOptStr]
  | some a =>
    cases y with
    | none => simp [none_comparator, specCmpOptStr]
    | some b =>
      by_cases hab : a = b
      · subst hab
        simp [none_comparator, specCmpOptStr]
      · rcases lt_trichotomy a b with h | h | h
        · simp [none_comparator, specCmpOptStr, hab, h, asymm h]
        · exact absurd h hab
        · simp [none_comparator, specCmpOptStr, hab, h, asymm h, not_lt_of_gt h]

lemma none_comparator_bool (a b : Bool) :
    none_comparator (.bool a) (.bool b) = some (specCmpBool a b) := by
  cases a <;> cases b <;> with_unfolding_all rfl

lemma to_tuple_inj {c d : CombineArchiveContent}
    (h : c.to_tuple = d.to_tuple) :
    c.location = d.location ∧ c.format = d.format ∧ c.master = d.master := by
  have h' := h
  simp only [CombineArchiveContent.to_tuple, PyVal.tup.injEq, List.cons.injEq, and_true] at h'
  obtain ⟨h1, h2, h3⟩ := h'
  refine ⟨?_, ?_, by simpa using h3⟩
  · cases hl : c.location <;> cases hl' : d.location <;>
      simp_all [Option.elim]
  · cases hl : c.format <;> cases hl' : d.format <;>
      simp_all [Option.elim]

lemma match_some_step (k : Int) (r : Option Int) :
    (match some k with | some 0 => r | cmp => cmp) = if k = 0 then r else some k := by
  rcases eq_or_ne k 0 with hk | hk
  · subst hk; simp
  · split
    · simp_all
    · simp [hk]

lemma noneComparatorZip_cons (x y : PyVal) (xs ys : List PyVal) :
    noneComparatorZip (x :: xs) (y :: ys)
      = (match none_comparator x y with
         | some 0 => noneComparatorZip xs ys
         | cmp => cmp) := by
  rw [noneComparatorZip.eq_def]

lemma none_comparator_tup3 (a1 a2 a3 b1 b2 b3 : PyVal) (h : PyVal.tup [a1, a2, a3] ≠ .tup [b1, b2, b3]) :
    none_comparator (.tup [a1, a2, a3]) (.tup [b1, b2, b3])
      = noneComparatorZip [a1, a2, a3] [b1, b2, b3] := by
  rw [none_comparator.eq_def, if_neg h]
  simp

lemma none_comparator_to_tuple (c d : CombineArchiveContent) :
    none_comparator c.to_tuple d.to_tuple = some (specCmpContent c d) := by
  by_cases heq : c.to_tuple = d.to_tuple
  · obtain ⟨h1, h2, h3⟩ := to_tuple_inj heq
    rw [none_comparator.eq_def, if_pos heq, specCmpContent, h1, h2, h3]
    simp [specCmpOptStr_self, specCmpBool_self]
  · have hz : none_comparator c.to_tuple d.to_tuple
        = noneComparatorZip
            [c.location.elim PyVal.none PyVal.str, c.format.elim PyVal.none PyVal.str, .bool c.master]
            [d.location.elim PyVal.none PyVal.str, d.format.elim PyVal.none PyVal.str, .bool d.master] := by
      show none_comparator (CombineArchiveContent.to_tuple c) (CombineArchiveContent.to_tuple d) = _
      rw [CombineArchiveContent.to_tuple, CombineArchiveContent.to_tuple]
      exact none_comparator_tup3 _ _ _ _ _ _ (by
        simpa [CombineArchiveContent.to_tuple] using heq)
    rw [hz, noneComparatorZip_cons, none_comparator_optStr, match_some_step]
    by_cases k1 : specCmpOptStr c.location d.location = 0
    · rw [if_pos k1, noneComparatorZip_cons, none_comparator_optStr, match_some_step]
      by_cases k2 : specCmpOptStr c.format d.format = 0
      · rw [if_pos k2, noneComparatorZip_cons, none_comparator_bool, match_some_step]
        by_cases k3 : specCmpBool c.master d.master = 0
        · rw [if_pos k3]
          simp [noneComparatorZip, specCmpContent, k1, k2, k3]
        · rw [if_neg k3]
          simp [specCmpContent, k1, k2]
      · rw [if_neg k2]
        simp [specCmpContent, k1, k2]
    · rw [if_neg k1]
      simp [specCmpContent, k1]

lemma ncLt_to_tuple (c d : CombineArchiveContent) :
    ncLt c.to_tuple d.to_tuple = decide (specCmpContent c d < 0) := by
  rw [ncLt, none_comparator_to_tuple]

lemma none_sorted_to_tuple_eq_specSorted (l : List CombineArchiveContent) :
    none_sorted CombineArchiveContent.to_tuple l = specSortedContents l := by
  rw [none_sorted, specSortedContents]
  congr 1
  funext a b
  exact ncLt_to_tuple a b

lemma pyInsert_length (lt : α → α → Bool) (x : α) (l : List α) :
    (pyInsert lt x l).length = l.length + 1 := by
  induction l with
  | nil => rfl
  | cons y ys ih =>
    rw [pyInsert]
    by_cases h : lt x y <;> simp [h, ih]

lemma pySorted_length (lt : α → α → Bool) (l : List α) :
    (pySorted lt l).length = l.length := by
  suffices h : ∀ acc : List α,
      (l.foldl (fun acc x => pyInsert lt x acc) acc).length = acc.length + l.length by
    simpa using h []
  induction l with
  | nil => simp
  | cons x xs ih =>
    intro acc
    simp only [List.foldl_cons, ih, pyInsert_length, List.length_cons]
    omega

lemma all_zip_iff_forall₂ (p : α → α → Bool) :
    ∀ l₁ l₂ : List α, l₁.length = l₂.length →
      (((l₁.zip l₂).all fun x => p x.1 x.2) = true
        ↔ List.Forall₂ (fun a b => p a b = true) l₁ l₂)
  | [], [] => by simp
  | [], _ :: _ => by simp
  | _ :: _, [] => by simp
  | a :: l₁, b :: l₂ => by
    intro h
    simp only [List.length_cons, Nat.add_right_cancel_iff] at h
    simp [List.zip_cons_cons, List.forall₂_cons, all_zip_iff_forall₂ p l₁ l₂ h,
      and_comm]

lemma content_is_equal_iff (c d : CombineArchiveContent) :
    c.is_equal d = true ↔ (c.location = d.location ∧ c.format = d.format ∧ c.master = d.master) := by
  simp [CombineArchiveContent.is_equal, and_assoc]

/-- C4: `CombineArchive.is_equal` returns true iff both manifests have the same
number of entries and, after independently sorting both by the null-tolerant
key `(location, format, master)` — null before any value, lexicographic — every
pair of corresponding entries is field-wise equal.  The right-hand side is
phrased entirely with the spec-side order (`specCmpContent`,
`specSortedContents`). -/
theorem is_equal_iff_sorted_fieldwise (a b : CombineArchive) :
    a.is_equal b = true ↔
      (a.contents.length = b.contents.length ∧
        List.Forall₂
          (fun c d => c.location = d.location ∧ c.format = d.format ∧ c.master = d.master)
          (specSortedContents a.contents) (specSortedContents b.contents)) := by
  rw [CombineArchive.is_equal, are_lists_equal]
  by_cases hlen : a.contents.length = b.contents.length
  · rw [if_neg (by simpa using hlen)]
    rw [none_sorted_to_tuple_eq_specSorted, none_sorted_to_tuple_eq_specSorted]
    have hlen' : (specSortedContents a.contents).length = (specSortedContents b.contents).length := by
      rw [specSortedContents, specSortedContents, pySorted_length, pySorted_length]
      exact hlen
    rw [all_zip_iff_forall₂ _ _ _ hlen']
    constructor
    · intro h
      refine ⟨hlen, List.Forall₂.imp (fun c d hcd => (content_is_equal_iff _ _).mp hcd) h⟩
    · intro h
      exact List.Forall₂.imp (fun c d hcd => (content_is_equal_iff _ _).mpr hcd) h.2
  · rw [if_pos (by simpa using hlen)]
    simp [hlen]

/-! ### The format registry tables (`archives/data_model.py` lines 253-491) -/

/-- Semantic form of one registry regex: `bodies` are the expanded literal
alternatives standing after the `^https?://` that every source pattern begins
with, and `openEnd` records whether the pattern ends in `($|\.)` (a dot may
follow, with an arbitrary suffix) instead of the `$` anchor. -/
structure FormatPattern where
  bodies : List String
  openEnd : Bool
  deriving DecidableEq, Repr

/-- Character-level prefix test (used instead of `String.isPrefixOf`, whose
byte-indexed loop does not reduce definitionally). -/
def strStartsWith (p s : String) : Bool :=
  p.data.isPrefixOf s.data

/-- Matching a string against one translated registry regex, with Python
`re.match` semantics: anchored at the start, scheme `http` or `https`, and a
`$` anchor also accepts a single trailing newline. -/
def matchesPattern (p : FormatPattern) (s : String) : Bool :=
  p.bodies.any fun b =>
    ["http://", "https://"].any fun scheme =>
      let full := scheme ++ b
      s == full || s == full ++ "\n" || (p.openEnd && strStartsWith (full ++ ".") s)
/-- Embeds the `CombineArchiveContentFormat` enum of `archives/data_model.py`
(lines 253-362): symbolic format name paired with its canonical URI string. -/
def CombineArchiveContentFormat : List (String × String) := [
  ("ACTIONSCRIPT", "http://purl.org/NET/mediatypes/text/x-actionscript"),
  ("ADOBE_FLASH", "http://purl.org/NET/mediatypes/application/x-shockwave-flash"),
  ("AI", "http://purl.org/NET/mediatypes/application/pdf"),
  ("BioPAX", "http://identifiers.org/combine.specifications/biopax"),
  ("BMP", "http://purl.org/NET/mediatypes/image/bmp"),
  ("BNGL", "http://purl.org/NET/mediatypes/text/bngl+plain"),
  ("BOURNE_SHELL", "http://purl.org/NET/mediatypes/text/x-sh"),
  ("C", "http://purl.org/NET/mediatypes/text/x-c"),
  ("CellML", "http://identifiers.org/combine.specifications/cellml"),
  ("CopasiML", "http://purl.org/NET/mediatypes/application/x-copasi"),
  ("CPP_HEADER", "http://purl.org/NET/mediatypes/text/x-c++hdr"),
  ("CPP_SOURCE", "http://purl.org/NET/mediatypes/text/x-c++src"),
  ("CSS", "http://purl.org/NET/mediatypes/text/css"),
  ("CSV", "http://purl.org/NET/mediatypes/text/csv"),
  ("DLL", "http://purl.org/NET/mediatypes/application/vnd.microsoft.portable-executable"),
  ("DOC", "http://purl.org/NET/mediatypes/application/msword"),
  ("DOCX", "http://purl.org/NET/mediatypes/application/vnd.openxmlformats-officedocument.wordprocessingml.document"),
  ("EPS", "http://purl.org/NET/mediatypes/application/postscript"),
  ("Escher", "http://purl.org/NET/mediatypes/application/escher+json"),
  ("GENESIS", "http://purl.org/NET/mediatypes/text/x-genesis"),
  ("GIF", "http://purl.org/NET/mediatypes/image/gif"),
  ("GINML", "http://purl.org/NET/mediatypes/application/ginml+xml"),
  ("GMSH_MESH", "http://purl.org/NET/mediatypes/model/mesh"),
  ("GRAPHML", "http://purl.org/NET/mediatypes/application/graphml+xml"),
  ("HDF5", "http://purl.org/NET/mediatypes/application/x-hdf"),
  ("HOC", "http://purl.org/NET/mediatypes/text/x-hoc"),
  ("HTML", "http://purl.org/NET/mediatypes/text/html"),
  ("ICO", "http://purl.org/NET/mediatypes/image/x-icon"),
  ("INI", "http://purl.org/NET/mediatypes/text/x-ini"),
  ("IPython_Notebook", "http://purl.org/NET/mediatypes/application/x-ipynb+json"),
  ("JAVA_ARCHIVE", "http://purl.org/NET/mediatypes/application/java-archive"),
  ("JAVA_CLASS", "http://purl.org/NET/mediatypes/application/java-vm"),
  ("JAVA_SOURCE", "http://purl.org/NET/mediatypes/text/x-java"),
  ("JAVASCRIPT", "http://purl.org/NET/mediatypes/text/javascript"),
  ("JPEG", "http://purl.org/NET/mediatypes/image/jpeg"),
  ("JSON", "http://purl.org/NET/mediatypes/application/json"),
  ("Kappa", "http://purl.org/NET/mediatypes/text/x-kappa"),
  ("LEMS", "http://purl.org/NET/mediatypes/application/lems+xml"),
  ("MAPLE_WORKSHEET", "http://purl.org/NET/mediatypes/application/x-maple"),
  ("MARKDOWN", "http://purl.org/NET/mediatypes/text/markdown"),
  ("MASS", "http://purl.org/NET/mediatypes/application/mass+json"),
  ("MATHEMATICA_NOTEBOOK", "http://purl.org/NET/mediatypes/application/vnd.wolfram.mathematica"),
  ("MATLAB", "http://purl.org/NET/mediatypes/text/x-matlab"),
  ("MATLAB_DATA", "http://purl.org/NET/mediatypes/application/x-matlab-data"),
  ("MATLAB_FIGURE", "http://purl.org/NET/mediatypes/application/matlab-fig"),
  ("MorpheusML", "http://purl.org/NET/mediatypes/application/morpheusml+xml"),
  ("NCS", "http://purl.org/NET/mediatypes/text/x-ncs"),
  ("NeuroML", "http://identifiers.org/combine.specifications/neuroml"),
  ("NEURON_SESSION", "http://purl.org/NET/mediatypes/text/x-nrn-ses"),
  ("NMODL", "http://purl.org/NET/mediatypes/text/x-nmodl"),
  ("NuML", "http://purl.org/NET/mediatypes/application/numl+xml"),
  ("ODE", "http://purl.org/NET/mediatypes/text/x-ode"),
  ("ODT", "http://purl.org/NET/mediatypes/application/vnd.oasis.opendocument.text"),
  ("OMEX", "http://identifiers.org/combine.specifications/omex"),
  ("OMEX_MANIFEST", "http://identifiers.org/combine.specifications/omex-manifest"),
  ("OMEX_METADATA", "http://identifiers.org/combine.specifications/omex-metadata"),
  ("OWL", "http://purl.org/NET/mediatypes/application/rdf+xml"),
  ("PDF", "http://purl.org/NET/mediatypes/application/PDF"),
  ("PERL", "http://purl.org/NET/mediatypes/text/x-perl"),
  ("pharmML", "http://purl.org/NET/mediatypes/application/pharmml+xml"),
  ("PHP", "http://purl.org/NET/mediatypes/application/x-httpd-php"),
  ("PNG", "http://purl.org/NET/mediatypes/image/png"),
  ("POSTSCRIPT", "http://purl.org/NET/mediatypes/application/postscript"),
  ("PPT", "http://purl.org/NET/mediatypes/application/vnd.ms-powerpoint"),
  ("PPTX", "http://purl.org/NET/mediatypes/application/vnd.openxmlformats-officedocument.presentationml.presentation"),
  ("PSD", "http://purl.org/NET/mediatypes/image/vnd.adobe.photoshop"),
  ("Python", "http://purl.org/NET/mediatypes/application/x-python-code"),
  ("QUICKTIME", "http://purl.org/NET/mediatypes/video/quicktime"),
  ("R", "http://purl.org/NET/mediatypes/text/x-r"),
  ("R_Project", "http://purl.org/NET/mediatypes/application/x-r-project"),
  ("RBA", "http://purl.org/NET/mediatypes/application/rba+zip"),
  ("RDF_XML", "http://purl.org/NET/mediatypes/application/rdf+xml"),
  ("RST", "http://purl.org/NET/mediatypes/text/x-rst"),
  ("RUBY", "http://purl.org/NET/mediatypes/text/x-ruby"),
  ("SBGN", "http://identifiers.org/combine.specifications/sbgn"),
  ("SBML", "http://identifiers.org/combine.specifications/sbml"),
  ("SBOL", "http://identifiers.org/combine.specifications/sbol"),
  ("SBOL_VISUAL", "http://identifiers.org/combine.specifications/sbol-visual"),
  ("Scilab", "http://purl.org/NET/mediatypes/application/x-scilab"),
  ("SED_ML", "http://identifiers.org/combine.specifications/sed-ml"),
  ("SHOCKWAVE_FLASH", "http://purl.org/NET/mediatypes/application/x-shockwave-flash"),
  ("SimBiology_Project", "http://purl.org/NET/mediatypes/application/x-sbproj"),
  ("SLI", "http://purl.org/NET/mediatypes/text/x-sli"),
  ("Smoldyn", "http://purl.org/NET/mediatypes/text/smoldyn+plain"),
  ("SO", "http://purl.org/NET/mediatypes/application/x-sharedlib"),
  ("SQL", "http://purl.org/NET/mediatypes/application/sql"),
  ("SVG", "http://purl.org/NET/mediatypes/image/svg+xml"),
  ("SVGZ", "http://purl.org/NET/mediatypes/image/svg+xml-compressed"),
  ("TEXT", "http://purl.org/NET/mediatypes/text/plain"),
  ("TIFF", "http://purl.org/NET/mediatypes/image/tiff"),
  ("TSV", "http://purl.org/NET/mediatypes/text/tab-separated-values"),
  ("VCML", "http://purl.org/NET/mediatypes/application/vcml+xml"),
  ("Vega", "http://purl.org/NET/mediatypes/application/vnd.vega.v5+json"),
  ("Vega_Lite", "http://purl.org/NET/mediatypes/application/vnd.vegalite.v3+json"),
  ("WEBP", "http://purl.org/NET/mediatypes/image/webp"),
  ("XML", "http://purl.org/NET/mediatypes/application/xml"),
  ("XPP", "http://purl.org/NET/mediatypes/text/x-ode"),
  ("XPP_AUTO", "http://purl.org/NET/mediatypes/text/x-ode-auto"),
  ("XPP_SET", "http://purl.org/NET/mediatypes/text/x-ode-set"),
  ("XLS", "http://purl.org/NET/mediatypes/application/vnd.ms-excel"),
  ("XLSX", "http://purl.org/NET/mediatypes/application/vnd.openxmlformats-officedocument.spreadsheetml.sheet"),
  ("XSL", "http://purl.org/NET/mediatypes/application/xslfo+xml"),
  ("XUL", "http://purl.org/NET/mediatypes/text/xul"),
  ("XYZ", "http://purl.org/NET/mediatypes/chemical/x-xyz"),
  ("YAML", "http://purl.org/NET/mediatypes/application/x-yaml"),
  ("ZGINML", "http://purl.org/NET/mediatypes/application/zginml+zip"),
  ("ZIP", "http://purl.org/NET/mediatypes/application/zip"),
  ("OTHER", "http://purl.org/NET/mediatypes/application/octet-stream")
]

/-- Entries 1-27 of the pattern table (split to keep elaboration linear). -/
def formatPatternTablePart1 : List (String × FormatPattern) := [
  ("ACTIONSCRIPT", ⟨["purl.org/NET/mediatypes/text/x-actionscript"], false⟩),
  ("ADOBE_FLASH", ⟨["purl.org/NET/mediatypes/application/x-shockwave-flash", "purl.org/NET/mediatypes/application/vnd.adobe.flash-movie"], false⟩),
  ("AI", ⟨["purl.org/NET/mediatypes/application/pdf", "purl.org/NET/mediatypes/application/postscript"], false⟩),
  ("BioPAX", ⟨["identifiers.org/combine.specifications/biopax"], true⟩),
  ("BMP", ⟨["purl.org/NET/mediatypes/image/bmp"], false⟩),
  ("BNGL", ⟨["purl.org/NET/mediatypes/text/bngl+plain"], true⟩),
  ("BOURNE_SHELL", ⟨["purl.org/NET/mediatypes/text/x-sh", "purl.org/NET/mediatypes/application/x-sh"], false⟩),
  ("C", ⟨["purl.org/NET/mediatypes/text/x-c"], false⟩),
  ("CellML", ⟨["identifiers.org/combine.specifications/cellml"], true⟩),
  ("CPP_HEADER", ⟨["purl.org/NET/mediatypes/text/x-c++hdr"], false⟩),
  ("CPP_SOURCE", ⟨["purl.org/NET/mediatypes/text/x-c++src"], false⟩),
  ("CopasiML", ⟨["purl.org/NET/mediatypes/application/x-copasi"], false⟩),
  ("CSS", ⟨["purl.org/NET/mediatypes/text/css"], false⟩),
  ("CSV", ⟨["purl.org/NET/mediatypes/text/csv"], false⟩),
  ("DLL", ⟨["purl.org/NET/mediatypes/application/vnd.microsoft.portable-executable"], false⟩),
  ("DOC", ⟨["purl.org/NET/mediatypes/application/msword"], false⟩),
  ("DOCX", ⟨["purl.org/NET/mediatypes/application/vnd.openxmlformats-officedocument.wordprocessingml.document"], false⟩),
  ("EPS", ⟨["purl.org/NET/mediatypes/application/postscript", "purl.org/NET/mediatypes/application/eps", "purl.org/NET/mediatypes/application/x-eps", "purl.org/NET/mediatypes/image/eps", "purl.org/NET/mediatypes/image/x-eps"], false⟩),
  ("Escher", ⟨["purl.org/NET/mediatypes/application/escher+json"], false⟩),
  ("GENESIS", ⟨["purl.org/NET/mediatypes/text/x-genesis"], false⟩),
  ("GIF", ⟨["purl.org/NET/mediatypes/image/gif"], false⟩),
  ("GINML", ⟨["purl.org/NET/mediatypes/application/ginml+xml"], false⟩),
  ("GMSH_MESH", ⟨["purl.org/NET/mediatypes/model/mesh"], false⟩),
  ("GRAPHML", ⟨["purl.org/NET/mediatypes/application/graphml+xml", "purl.org/NET/mediatypes/application/x-graphml+xml"], false⟩),
  ("HDF5", ⟨["purl.org/NET/mediatypes/application/x-hdf", "purl.org/NET/mediatypes/application/x-hdf5"], false⟩),
  ("HOC", ⟨["purl.org/NET/mediatypes/text/x-hoc"], false⟩),
  ("HTML", ⟨["purl.org/NET/mediatypes/text/html", "purl.org/NET/mediatypes/application/xhtml+xml"], false⟩)
]

/-- Entries 28-54 of the pattern table (split to keep elaboration linear). -/
def formatPatternTablePart2 : List (String × FormatPattern) := [
  ("ICO", ⟨["purl.org/NET/mediatypes/image/x-icon", "purl.org/NET/mediatypes/image/vnd.microsoft.icon"], false⟩),
  ("INI", ⟨["purl.org/NET/mediatypes/text/x-ini"], false⟩),
  ("IPython_Notebook", ⟨["purl.org/NET/mediatypes/application/x-ipynb+json"], false⟩),
  ("JAVA_ARCHIVE", ⟨["purl.org/NET/mediatypes/application/java-archive", "purl.org/NET/mediatypes/application/x-java-archive", "purl.org/NET/mediatypes/application/jar", "purl.org/NET/mediatypes/application/x-jar"], false⟩),
  ("JAVA_CLASS", ⟨["purl.org/NET/mediatypes/application/java-vm", "purl.org/NET/mediatypes/application/x-java-vm", "purl.org/NET/mediatypes/application/java", "purl.org/NET/mediatypes/application/x-java"], false⟩),
  ("JAVA_SOURCE", ⟨["purl.org/NET/mediatypes/text/x-java", "purl.org/NET/mediatypes/text/x-java-source"], false⟩),
  ("JAVASCRIPT", ⟨["purl.org/NET/mediatypes/text/javascript", "purl.org/NET/mediatypes/text/x-javascript", "purl.org/NET/mediatypes/application/javascript", "purl.org/NET/mediatypes/application/x-javascript"], false⟩),
  ("JPEG", ⟨["purl.org/NET/mediatypes/image/jpeg"], false⟩),
  ("JSON", ⟨["purl.org/NET/mediatypes/application/json"], false⟩),
  ("Kappa", ⟨["purl.org/NET/mediatypes/text/x-kappa"], false⟩),
  ("LEMS", ⟨["purl.org/NET/mediatypes/application/lems+xml"], false⟩),
  ("MAPLE_WORKSHEET", ⟨["purl.org/NET/mediatypes/application/x-maple"], false⟩),
  ("MARKDOWN", ⟨["purl.org/NET/mediatypes/text/markdown"], false⟩),
  ("MASS", ⟨["purl.org/NET/mediatypes/application/mass+json"], false⟩),
  ("MATHEMATICA_NOTEBOOK", ⟨["purl.org/NET/mediatypes/application/vnd.wolfram.mathematica"], false⟩),
  ("MATLAB", ⟨["purl.org/NET/mediatypes/text/x-matlab"], false⟩),
  ("MATLAB_DATA", ⟨["purl.org/NET/mediatypes/application/x-matlab-data"], false⟩),
  ("MATLAB_FIGURE", ⟨["purl.org/NET/mediatypes/application/matlab-fig"], false⟩),
  ("MorpheusML", ⟨["purl.org/NET/mediatypes/application/morpheusml+xml"], false⟩),
  ("NCS", ⟨["purl.org/NET/mediatypes/text/x-ncs"], false⟩),
  ("NeuroML", ⟨["identifiers.org/combine.specifications/neuroml"], true⟩),
  ("NEURON_SESSION", ⟨["purl.org/NET/mediatypes/text/x-nrn-ses"], false⟩),
  ("NMODL", ⟨["purl.org/NET/mediatypes/text/x-nmodl"], false⟩),
  ("NuML", ⟨["purl.org/NET/mediatypes/application/numl+xml"], false⟩),
  ("ODE", ⟨["purl.org/NET/mediatypes/text/x-ode", "purl.org/NET/mediatypes/text/x-xpp"], false⟩),
  ("ODT", ⟨["purl.org/NET/mediatypes/application/vnd.oasis.opendocument.text"], false⟩),
  ("OMEX", ⟨["identifiers.org/combine.specifications/omex"], true⟩)
]

/-- Entries 55-81 of the pattern table (split to keep elaboration linear). -/
def formatPatternTablePart3 : List (String × FormatPattern) := [
  ("OMEX_MANIFEST", ⟨["identifiers.org/combine.specifications/omex-manifest"], true⟩),
  ("OMEX_METADATA", ⟨["identifiers.org/combine.specifications/omex-metadata"], true⟩),
  ("OWL", ⟨["purl.org/NET/mediatypes/application/rdf+xml"], false⟩),
  ("PDF", ⟨["purl.org/NET/mediatypes/application/pdf"], false⟩),
  ("PERL", ⟨["purl.org/NET/mediatypes/text/x-perl", "purl.org/NET/mediatypes/application/x-perl"], false⟩),
  ("pharmML", ⟨["purl.org/NET/mediatypes/application/pharmml+xml"], false⟩),
  ("PHP", ⟨["purl.org/NET/mediatypes/application/x-httpd-php", "purl.org/NET/mediatypes/application/x-httpd-php-source", "purl.org/NET/mediatypes/application/x-php", "purl.org/NET/mediatypes/text/x-php"], false⟩),
  ("PNG", ⟨["purl.org/NET/mediatypes/image/png"], false⟩),
  ("POSTSCRIPT", ⟨["purl.org/NET/mediatypes/application/postscript"], false⟩),
  ("PPT", ⟨["purl.org/NET/mediatypes/application/vnd.ms-powerpoint"], false⟩),
  ("PPTX", ⟨["purl.org/NET/mediatypes/application/vnd.openxmlformats-officedocument.presentationml.presentation"], false⟩),
  ("PSD", ⟨["purl.org/NET/mediatypes/image/vnd.adobe.photoshop", "purl.org/NET/mediatypes/image/psd", "purl.org/NET/mediatypes/image/x-psd", "purl.org/NET/mediatypes/application/photoshop", "purl.org/NET/mediatypes/application/x-photoshop", "purl.org/NET/mediatypes/application/psd", "purl.org/NET/mediatypes/application/x-psd"], false⟩),
  ("Python", ⟨["purl.org/NET/mediatypes/application/x-python-code"], false⟩),
  ("QUICKTIME", ⟨["purl.org/NET/mediatypes/video/quicktime", "purl.org/NET/mediatypes/image/mov"], false⟩),
  ("R", ⟨["purl.org/NET/mediatypes/text/x-r"], false⟩),
  ("R_Project", ⟨["purl.org/NET/mediatypes/application/x-r-project"], false⟩),
  ("RBA", ⟨["purl.org/NET/mediatypes/application/rba+zip"], false⟩),
  ("RDF_XML", ⟨["purl.org/NET/mediatypes/application/rdf+xml"], false⟩),
  ("RST", ⟨["purl.org/NET/mediatypes/text/x-rst"], false⟩),
  ("RUBY", ⟨["purl.org/NET/mediatypes/text/x-ruby"], false⟩),
  ("SBGN", ⟨["identifiers.org/combine.specifications/sbgn"], true⟩),
  ("SBML", ⟨["identifiers.org/combine.specifications/sbml"], true⟩),
  ("SBOL", ⟨["identifiers.org/combine.specifications/sbol"], true⟩),
  ("SBOL_VISUAL", ⟨["identifiers.org/combine.specifications/sbol-visual"], true⟩),
  ("Scilab", ⟨["purl.org/NET/mediatypes/application/x-scilab"], false⟩),
  ("SED_ML", ⟨["identifiers.org/combine.specifications/sedml", "identifiers.org/combine.specifications/sed-ml"], true⟩),
  ("SHOCKWAVE_FLASH", ⟨["purl.org/NET/mediatypes/application/x-shockwave-flash", "purl.org/NET/mediatypes/application/vnd.adobe.flash-movie"], false⟩)
]

/-- Entries 82-108 of the pattern table (split to keep elaboration linear). -/
def formatPatternTablePart4 : List (String × FormatPattern) := [
  ("SimBiology_Project", ⟨["purl.org/NET/mediatypes/application/x-sbproj"], false⟩),
  ("SLI", ⟨["purl.org/NET/mediatypes/text/x-sli"], false⟩),
  ("Smoldyn", ⟨["purl.org/NET/mediatypes/text/smoldyn+plain"], false⟩),
  ("SO", ⟨["purl.org/NET/mediatypes/application/x-sharedlib"], false⟩),
  ("SQL", ⟨["purl.org/NET/mediatypes/application/sql"], false⟩),
  ("SVG", ⟨["purl.org/NET/mediatypes/image/svg+xml"], false⟩),
  ("SVGZ", ⟨["purl.org/NET/mediatypes/image/svg+xml-compressed"], false⟩),
  ("TEXT", ⟨["purl.org/NET/mediatypes/text/plain"], false⟩),
  ("TIFF", ⟨["purl.org/NET/mediatypes/image/tiff"], false⟩),
  ("TSV", ⟨["purl.org/NET/mediatypes/text/tab-separated-values"], false⟩),
  ("Vega", ⟨["purl.org/NET/mediatypes/application/vnd.vega.v5+json"], false⟩),
  ("Vega_Lite", ⟨["purl.org/NET/mediatypes/application/vnd.vegalite.v3+json"], false⟩),
  ("VCML", ⟨["purl.org/NET/mediatypes/application/vcml+xml"], false⟩),
  ("WEBP", ⟨["purl.org/NET/mediatypes/image/webp"], false⟩),
  ("XLS", ⟨["purl.org/NET/mediatypes/application/vnd.ms-excel"], false⟩),
  ("XLSX", ⟨["purl.org/NET/mediatypes/application/vnd.openxmlformats-officedocument.spreadsheetml.sheet"], false⟩),
  ("XML", ⟨["purl.org/NET/mediatypes/application/xml"], false⟩),
  ("XPP", ⟨["purl.org/NET/mediatypes/text/x-ode", "purl.org/NET/mediatypes/text/x-xpp"], false⟩),
  ("XPP_AUTO", ⟨["purl.org/NET/mediatypes/text/x-ode-auto", "purl.org/NET/mediatypes/text/x-xpp-auto"], false⟩),
  ("XPP_SET", ⟨["purl.org/NET/mediatypes/text/x-ode-set", "purl.org/NET/mediatypes/text/x-xpp-set"], false⟩),
  ("XSL", ⟨["purl.org/NET/mediatypes/application/xslfo+xml", "purl.org/NET/mediatypes/text/xsl"], false⟩),
  ("XUL", ⟨["purl.org/NET/mediatypes/text/xul"], false⟩),
  ("XYZ", ⟨["purl.org/NET/mediatypes/chemical/x-xyz"], false⟩),
  ("YAML", ⟨["purl.org/NET/mediatypes/application/x-yaml"], false⟩),
  ("ZGINML", ⟨["purl.org/NET/mediatypes/application/zginml+zip"], false⟩),
  ("ZIP", ⟨["purl.org/NET/mediatypes/application/zip"], false⟩),
  ("OTHER", ⟨["purl.org/NET/mediatypes/application/octet-stream"], false⟩)
]
/-- Embeds the `CombineArchiveContentFormatPattern` enum of `archives/data_model.py`
(lines 365-491).  Every source regex has the shape `^https?://BODY$` or
`^https?://BODY($|\\.)`, where BODY is a literal with alternation groups and
optional single characters; each regex is translated to the explicit list of its
BODY alternatives (scheme handled by `matchesPattern`) plus the `openEnd` flag
for the `($|\\.)` ending. -/
def CombineArchiveContentFormatPattern : List (String × FormatPattern) :=
  formatPatternTablePart1 ++ formatPatternTablePart2 ++ formatPatternTablePart3 ++ formatPatternTablePart4

/-- Modelled from the spec (§4.2): `FormatRegistry.resolve(uri)` tests `uri`
against each registered pattern in table order and returns the first symbolic
name whose pattern matches, or none.  The repository has no function of this
name; the pattern table itself is embedded from the source above. -/
def resolveFormat (uri : String) : Option String :=
  (CombineArchiveContentFormatPattern.find? fun p => matchesPattern p.2 uri).map (fun p => p.1)

/-- Whole-registry consistency check, one linear pass: every pattern-table
entry other than `PDF` whose symbolic name also appears in the canonical-URI
table has a canonical URI matching its own pattern. -/
def registryConsistent : Bool :=
  CombineArchiveContentFormatPattern.all fun p =>
    p.1 == "PDF" ||
      ((CombineArchiveContentFormat.find? fun e => e.1 == p.1).elim true
        fun e => matchesPattern p.2 e.2)

/-- C6: format resolution is pure and total: the result is `some` exactly when
some registered pattern matches (absence of a match is a normal `none` result,
never an exception), `.../text/csv` resolves to the `CSV` symbolic name, and
`not-a-uri` resolves to `none`. -/
theorem resolveFormat_total_and_scenarioC :
    (∀ uri : String, (resolveFormat uri).isSome = true
        ↔ ∃ p ∈ CombineArchiveContentFormatPattern, matchesPattern p.2 uri = true) ∧
    resolveFormat "http://purl.org/NET/mediatypes/text/csv" = some "CSV" ∧
    resolveFormat "not-a-uri" = Option.none := by
  refine ⟨?_, rfl, rfl⟩
  intro uri
  simp [resolveFormat, Option.isSome_map', List.find?_isSome]

/-- C3 counterexample: the `PDF` entry of the canonical-URI table is
`…/application/PDF` (upper case) while the `PDF` pattern only accepts
`…/application/pdf`, so the canonical URI written for `PDF` does not match
`PDF`'s own registered pattern. -/
theorem pdf_canonical_uri_fails_own_pattern :
    CombineArchiveContentFormat.find? (fun e => e.1 == "PDF")
      = some ("PDF", "http://purl.org/NET/mediatypes/application/PDF") ∧
    CombineArchiveContentFormatPattern.find? (fun e => e.1 == "PDF")
      = some ("PDF", ⟨["purl.org/NET/mediatypes/application/pdf"], false⟩) ∧
    matchesPattern ⟨["purl.org/NET/mediatypes/application/pdf"], false⟩
      "http://purl.org/NET/mediatypes/application/PDF" = false :=
  ⟨rfl, rfl, rfl⟩

set_option maxRecDepth 100000 in
set_option maxHeartbeats 1000000 in
lemma registryConsistent_eq_true : registryConsistent = true := by rfl

/-- C3 (amended): for every symbolic name other than `PDF` that appears in both
registry tables (looked up by name, as the tables are used), the canonical URI
written for that name matches that same name's registered pattern. -/
theorem canonical_uri_matches_own_pattern_except_pdf
    (n : String) (e : String × String) (p : String × FormatPattern)
    (he : CombineArchiveContentFormat.find? (fun x => x.1 == n) = some e)
    (hp : CombineArchiveContentFormatPattern.find? (fun x => x.1 == n) = some p)
    (hn : n ≠ "PDF") :
    matchesPattern p.2 e.2 = true := by
  have hmem : p ∈ CombineArchiveContentFormatPattern := List.mem_of_find?_eq_some hp
  have hname : p.1 = n := by
    have := List.find?_some hp
    simpa using this
  have hall : registryConsistent = true := registryConsistent_eq_true
  rw [registryConsistent, List.all_eq_true] at hall
  have hp' := hall p hmem
  rw [hname] at hp'
  have hnePDF : (n == "PDF") = false := by
    simpa using hn
  rw [hnePDF, Bool.false_or, he] at hp'
  simpa using hp'

/-- Witness for C3's amended theorem, at the `CSV` entry. -/
theorem canonical_uri_matches_own_pattern_except_pdf_witness :
    CombineArchiveContentFormat.find? (fun x => x.1 == "CSV")
        = some ("CSV", "http://purl.org/NET/mediatypes/text/csv") ∧
    CombineArchiveContentFormatPattern.find? (fun x => x.1 == "CSV")
        = some ("CSV", ⟨["purl.org/NET/mediatypes/text/csv"], false⟩) ∧
    matchesPattern ⟨["purl.org/NET/mediatypes/text/csv"], false⟩
      "http://purl.org/NET/mediatypes/text/csv" = true :=
  ⟨rfl, rfl,
    canonical_uri_matches_own_pattern_except_pdf "CSV" _ _ rfl rfl (by decide)⟩

/-! ### The libcombine layer and the manifest codec
(`archives/data_model.py` lines 494-844) -/

/-- Modelled from the spec (§4.4, §6): one content entry of a libcombine
`CaOmexManifest`, with optional location/format/master attributes
(`isSet… = false` is `Option.none`). -/
structure CaContent where
  location : Option String := Option.none
  format : Option String := Option.none
  master : Option Bool := Option.none
  deriving DecidableEq, Repr

/-- Modelled from the spec: a libcombine `CaOmexManifest` — its list of content
entries plus the error log consulted by `get_combine_errors_warnings`; a log
entry is a message paired with the value of `isError() or isFatal()`. -/
structure CaOmexManifest where
  contents : List CaContent := []
  log : List (String × Bool) := []
  deriving DecidableEq, Repr

/-- Embeds `get_combine_errors_warnings(manifest)` (lines 821-844): walk the
error log; an error/fatal entry contributes its message to `errors`, any other
to `warnings`; each message is wrapped in a singleton list as in the source. -/
def get_combine_errors_warnings (manifest : CaOmexManifest) :
    List (List String) × List (List String) :=
  manifest.log.foldl
    (fun ew e => if e.2 then (ew.1 ++ [[e.1]], ew.2) else (ew.1, ew.2 ++ [[e.1]]))
    ([], [])

/-- Embeds the per-content loop of `CombineArchiveWriter.write_manifest` (lines
560-571): `setLocation`/`setFormat` are called only on non-null fields (an
attribute never set stays `Option.none`); `master` is a `Bool`, never Python
`None`, so `setMaster` is always called. -/
def content_to_libcombine (c : CombineArchiveContent) : CaContent :=
  { location := c.location, format := c.format, master := some c.master }

/-- Embeds `CombineArchiveWriter.write_manifest(contents, filename)` (lines
553-581).  `buildLog` is the diagnostics log libcombine attaches to the
constructed manifest (modelled from the spec; empty for well-formed contents).
Warnings only `warn`; errors raise `ValueError`; otherwise
`libcombine.writeOMEXToFile(manifest, filename)` stores the manifest at the
path, modelled by returning the manifest as the new file content. -/
def write_manifest (contents : List CombineArchiveContent)
    (buildLog : List (String × Bool)) : Except PyErr CaOmexManifest :=
  let manifest : CaOmexManifest :=
    { contents := contents.map content_to_libcombine, log := buildLog }
  if (get_combine_errors_warnings manifest).1 ≠ [] then Except.error PyErr.valueError
  else Except.ok manifest

/-- Embeds the per-entry read loop of `CombineArchiveReader.read_manifest`
(lines 766-781): a fresh `CombineArchiveContent()` (all defaults) whose fields
are assigned only when the corresponding attribute is set. -/
def parse_content (c : CaContent) : CombineArchiveContent :=
  { location := c.location, format := c.format, master := c.master.getD false }

/-- Reader state: the `errors` and `warnings` lists of a
`CombineArchiveReader` instance. -/
structure ReaderState where
  errors : List (List String) := []
  warnings : List (List String) := []
  deriving DecidableEq, Repr

/-- The value of the `CombineArchiveContentFormat.ZIP` enum member, used by the
plain-zip fallback of `read_manifest`. -/
def zipFormatURI : String := "http://purl.org/NET/mediatypes/application/zip"

/-- Embeds `CombineArchiveReader.read_manifest(filename, archive_filename,
config)` (lines 720-781).
* `validate` is `config.VALIDATE_OMEX_MANIFESTS` (the `Config` class is not in
  the sources; modelled from the spec as a boolean switch).
* `fileContent` is what `libcombine.readOMEXFromFile(filename)` produced:
  `Option.none` when it is not a `CaOmexManifest` (libcombine modelled from
  the spec).
* `zipRun` is the outcome of `CombineArchiveZipReader().run(archive_filename)`
  (modelled from the spec: the contents read from the plain zip, or the
  `ValueError` it raises on an invalid zip).
When `fileContent` is `Option.none` under validation (or with no archive
filename), the source line 737 executes
`self.errors(['…could not be read…'].format(filename))`: a `list` has no
`format` attribute, so the call raises `AttributeError` instead of recording
the error; the branch is therefore `Except.error PyErr.attributeError`. -/
def read_manifest (validate : Bool) (archive_filename : Option String)
    (fileContent : Option CaOmexManifest)
    (zipRun : Except Unit (List CombineArchiveContent))
    (st : ReaderState) :
    Except PyErr (List CombineArchiveContent × ReaderState) :=
  match fileContent with
  | Option.none =>
    if validate || archive_filename.isNone then Except.error PyErr.attributeError
    else
      match zipRun with
      | Except.ok contents =>
        Except.ok (contents ++ [{ location := some ".", format := some zipFormatURI }], st)
      | Except.error _ =>
        Except.ok ([],
          { st with errors := st.errors ++
              [["`" ++ archive_filename.getD "" ++ "` is not a valid zip file."]] })
  | some manifest_comb =>
    let ew := get_combine_errors_warnings manifest_comb
    if validate || archive_filename.isNone then
      let st' : ReaderState :=
        { errors := st.errors ++ ew.1, warnings := st.warnings ++ ew.2 }
      if ew.1 ≠ [] then Except.ok ([], st')
      else Except.ok (manifest_comb.contents.map parse_content, st')
    else
      if ew.1 ≠ [] then
        match zipRun with
        | Except.ok contents =>
          Except.ok (contents ++ [{ location := some ".", format := some zipFormatURI }], st)
        | Except.error _ =>
          Except.ok ([],
            { st with errors := st.errors ++
                [["`" ++ archive_filename.getD "" ++ "` is not a valid zip file."]] })
      else Except.ok (manifest_comb.contents.map parse_content, st)

/-! ### The archive service (`SpatialCombineArchive`, lines 847-1018) -/

/-- An insertion-ordered Python `dict`: assignment to an existing key updates
it in place, a new key is appended at the end. -/
def pyDictSet (d : List (String × String)) (k v : String) : List (String × String) :=
  if d.any fun p => p.1 == k then
    d.map fun p => if p.1 == k then (k, v) else p
  else d ++ [(k, v)]

/-- Lookup in the `dict` model. -/
def pyDictGet (d : List (String × String)) (k : String) : Option String :=
  (d.find? fun p => p.1 == k).map fun p => p.2

/-- Scan for `sub` as a contiguous run of `l`: a prefix here, or somewhere in
the tail. -/
def listHasRun (sub : List Char) : List Char → Bool
  | [] => sub.isEmpty
  | x :: xs => sub.isPrefixOf (x :: xs) || listHasRun sub xs

/-- Python's `pat in s` substring test, at character level. -/
def strContains (s pat : String) : Bool :=
  listHasRun pat.data s.data

/-- One iteration of the loop of `get_manifest_filepath` (lines 924-928): if
the value contains `"manifest"` it is appended to the `manifest` list and
assigned to `self.paths['manifest']`. -/
def manifestStep (acc : List String × List (String × String)) (v : String) :
    List String × List (String × String) :=
  if strContains v "manifest" then (acc.1 ++ [v], pyDictSet acc.2 "manifest" v)
  else acc

/-- Deduplication keeping first occurrences, standing for Python's
`list(set(…))` (whose CPython iteration order is unspecified; the choice is
observable only when several distinct paths match). -/
def pySetList : List String → List String :=
  go []
where
  /-- Skip values already seen, keep the first occurrence of each. -/
  go (seen : List String) : List String → List String
    | [] => []
    | x :: xs => if seen.contains x then go seen xs else x :: go (x :: seen) xs

/-- Embeds `SpatialCombineArchive.get_manifest_filepath` (lines 918-929): scan
a snapshot of `self.paths.values()` for paths containing `"manifest"`, then
return `list(set(manifest))[0]` — an `IndexError` when nothing matched.  The
result pairs the returned path with the updated `paths` dict. -/
def get_manifest_filepath (paths : List (String × String)) :
    Except PyErr (String × List (String × String)) :=
  let res := (paths.map fun p => p.2).foldl manifestStep ([], paths)
  match pySetList res.1 with
  | [] => Except.error PyErr.indexError
  | v :: _ => Except.ok (v, res.2)

/-- Embeds `SpatialCombineArchive.read_manifest_contents` (lines 931-937):
locate the manifest file, then read it with a fresh `CombineArchiveReader`,
passing `archive_filename=self.rootpath`. -/
def read_manifest_contents (rootpath : String) (paths : List (String × String))
    (validate : Bool) (fileContent : Option CaOmexManifest)
    (zipRun : Except Unit (List CombineArchiveContent)) :
    Except PyErr (List CombineArchiveContent × List (String × String)) :=
  match get_manifest_filepath paths with
  | Except.error e => Except.error e
  | Except.ok res =>
    match read_manifest validate (some rootpath) fileContent zipRun {} with
    | Except.error e => Except.error e
    | Except.ok out => Except.ok (out.1, res.2)

/-- Embeds `SpatialCombineArchive.generate_new_archive_content(fp)` (lines
939-949): `CombineArchiveContent(fp)` — location `fp`, format `None`, master
`False`. -/
def generate_new_archive_content (fp : String) : CombineArchiveContent :=
  { location := some fp }

/-- Observable outcome of `add_file_to_manifest`: the manifest file after the
call (`Option.none` when it was not rewritten) and whether the failure warning
was emitted.  The Python method itself returns `None` on every non-raising
path. -/
structure AddFileResult where
  written : Option CaOmexManifest
  warned : Bool
  deriving DecidableEq, Repr

/-- Embeds `SpatialCombineArchive.add_file_to_manifest(contents_fp)` (lines
951-963): read the manifest contents (outside the `try`, so exceptions there
propagate), append `generate_new_archive_content(contents_fp)`, then inside
the `try`: locate the manifest path again and `write_manifest`; any exception
in the `try` is caught, printed, warned about, and the method returns. -/
def add_file_to_manifest (rootpath : String) (paths : List (String × String))
    (validate : Bool) (fileContent : Option CaOmexManifest)
    (zipRun : Except Unit (List CombineArchiveContent))
    (buildLog : List (String × Bool)) (contents_fp : String) :
    Except PyErr AddFileResult :=
  match read_manifest_contents rootpath paths validate fileContent zipRun with
  | Except.error e => Except.error e
  | Except.ok res =>
    let contents := res.1 ++ [generate_new_archive_content contents_fp]
    match get_manifest_filepath res.2 with
    | Except.error _ => Except.ok { written := Option.none, warned := true }
    | Except.ok _ =>
      match write_manifest contents buildLog with
      | Except.error _ => Except.ok { written := Option.none, warned := true }
      | Except.ok m => Except.ok { written := some m, warned := false }

/-- A directory tree: the files directly in a directory, and its named
subdirectories in `os.walk` order. -/
inductive DirTree where
  | node (files : List String) (subdirs : List (String × DirTree))

/-- Path join, `os.path.join(root, f)`. -/
def joinPath (a b : String) : String := a ++ "/" ++ b

mutual

/-- Top-down `os.walk`: the directory itself first, then every subdirectory
recursively, in order; each step yields `(dirpath, files)`. -/
def walk (root : String) : DirTree → List (String × List String)
  | .node files subdirs => (root, files) :: walkSubs root subdirs
termination_by structural t => t

/-- The recursion of `walk` over the subdirectory list. -/
def walkSubs (root : String) : List (String × DirTree) → List (String × List String)
  | [] => []
  | sub :: rest => walk (joinPath root sub.1) sub.2 ++ walkSubs root rest
termination_by structural subs => subs

end

/-- One directory step of the `os.walk` loop of `get_all_archive_filepaths`
(lines 911-915): assign `paths['root'] = root`, then record each file of the
directory under its file name. -/
def recordDir (paths : List (String × String)) (rf : String × List String) :
    List (String × String) :=
  rf.2.foldl (fun paths f => pyDictSet paths f (joinPath rf.1 f))
    (pyDictSet paths "root" rf.1)

/-- Embeds `SpatialCombineArchive.get_all_archive_filepaths` (lines 903-916):
if the root exists, walk it top-down and apply `recordDir` for every directory
of the walk, starting from the empty dict. -/
def get_all_archive_filepaths (rootExists : Bool) (rootpath : String)
    (tree : DirTree) : List (String × String) :=
  if rootExists then (walk rootpath tree).foldl recordDir []
  else []

lemma manifest_fold_fst (values : List String) :
    ∀ (acc : List String) (d : List (String × String)),
      (values.foldl manifestStep (acc, d)).1
        = acc ++ values.filter (fun v => strContains v "manifest") := by
  induction values with
  | nil => intro acc d; simp
  | cons v rest ih =>
    intro acc d
    by_cases h : strContains v "manifest" = true
    · simp [manifestStep, h, ih]
    · rw [List.foldl_cons, manifestStep, if_neg (by simp [h]), List.filter_cons,
        if_neg (by simp [h]), ih]

lemma pySetList_cons (x : String) (xs : List String) :
    pySetList (x :: xs) = x :: pySetList.go [x] xs := by
  simp [pySetList, pySetList.go]

lemma get_manifest_filepath_no_match (paths : List (String × String))
    (h : (paths.map fun p => p.2).filter (fun v => strContains v "manifest") = []) :
    get_manifest_filepath paths = Except.error PyErr.indexError := by
  rw [get_manifest_filepath]
  have h1 := manifest_fold_fst (paths.map fun p => p.2) [] paths
  rw [h] at h1
  simp only [List.nil_append] at h1
  rw [h1]
  rfl

lemma get_manifest_filepath_first_match (paths : List (String × String))
    (v : String) (rest : List String)
    (h : (paths.map fun p => p.2).filter (fun v => strContains v "manifest") = v :: rest) :
    ∃ paths', get_manifest_filepath paths = Except.ok (v, paths') := by
  rw [get_manifest_filepath]
  have h1 := manifest_fold_fst (paths.map fun p => p.2) [] paths
  rw [h] at h1
  simp only [List.nil_append] at h1
  rw [h1, pySetList_cons]
  exact ⟨_, rfl⟩

/-- C7 (amended): probing the path index for the manifest returns the matching
path when exactly one indexed path contains the substring `"manifest"`, but
when no path contains it the `list(set(manifest))[0]` subscript raises
`IndexError` — absence is not a normal empty-result case. -/
theorem get_manifest_filepath_behaviour :
    (∀ paths : List (String × String),
      (paths.map fun p => p.2).filter (fun v => strContains v "manifest") = [] →
      get_manifest_filepath paths = Except.error PyErr.indexError) ∧
    (∀ (paths : List (String × String)) (v : String),
      (paths.map fun p => p.2).filter (fun v => strContains v "manifest") = [v] →
      ∃ paths', get_manifest_filepath paths = Except.ok (v, paths')) :=
  ⟨fun paths h => get_manifest_filepath_no_match paths h,
   fun paths v h => get_manifest_filepath_first_match paths v [] h⟩

/-- Witness for C7's amended theorem: an index without any manifest-like path
raises `IndexError`; an index with exactly one returns it. -/
theorem get_manifest_filepath_behaviour_witness :
    get_manifest_filepath [] = Except.error PyErr.indexError ∧
    ∃ paths', get_manifest_filepath [("manifest.xml", "a/manifest.xml")]
        = Except.ok ("a/manifest.xml", paths') :=
  ⟨get_manifest_filepath_behaviour.1 [] (by rfl),
   get_manifest_filepath_behaviour.2 [("manifest.xml", "a/manifest.xml")]
     "a/manifest.xml" (by rfl)⟩

/-- C7 counterexample: on an index whose paths contain no `"manifest"`
substring (here: a one-file index, and the empty index), the probe raises
`IndexError` instead of treating the absence as a normal empty result. -/
theorem get_manifest_filepath_raises_on_absence :
    get_manifest_filepath [("model.txt", "root/model.txt")]
        = Except.error PyErr.indexError ∧
    get_manifest_filepath [] = Except.error PyErr.indexError :=
  ⟨by rfl, by rfl⟩

/-- C8: when libcombine does not return a `CaOmexManifest` and validation is
requested (or no archive filename was supplied), `read_manifest` raises
`AttributeError` from `self.errors([…].format(filename))` — the code crashes
instead of recording the problem and returning `[]` as the spec states. -/
theorem read_manifest_crashes_when_unreadable :
    read_manifest true (some "archive.omex") Option.none (Except.error ()) {}
        = Except.error PyErr.attributeError ∧
    read_manifest false Option.none Option.none (Except.error ()) {}
        = Except.error PyErr.attributeError :=
  ⟨by rfl, by rfl⟩

lemma parse_content_to_libcombine (c : CombineArchiveContent) :
    parse_content (content_to_libcombine c) = c := rfl

lemma map_parse_map_to_libcombine (l : List CombineArchiveContent) :
    (l.map content_to_libcombine).map parse_content = l := by
  rw [List.map_map]
  simp [Function.comp_def, parse_content_to_libcombine]

lemma get_combine_errors_warnings_nil (m : CaOmexManifest) (h : m.log = []) :
    get_combine_errors_warnings m = ([], []) := by
  rw [get_combine_errors_warnings, h]
  rfl

lemma write_manifest_ok (contents : List CombineArchiveContent) :
    write_manifest contents []
      = Except.ok ⟨contents.map content_to_libcombine, []⟩ := by
  rfl

lemma read_manifest_clean (validate : Bool) (af : Option String)
    (zipRun : Except Unit (List CombineArchiveContent)) (st : ReaderState)
    (m : CaOmexManifest) (h : m.log = []) :
    read_manifest validate af (some m) zipRun st
      = Except.ok (m.contents.map parse_content, st) := by
  have hew := get_combine_errors_warnings_nil m h
  by_cases hb : (validate || af.isNone) = true <;>
    simp [read_manifest, hew, hb]

lemma zip_self_all_is_equal :
    ∀ l : List CombineArchiveContent,
      ((l.zip l).all fun p => p.1.is_equal p.2) = true
  | [] => rfl
  | c :: l => by
    rw [List.zip_cons_cons, List.all_cons, zip_self_all_is_equal l]
    simp [CombineArchiveContent.is_equal]

lemma is_equal_refl (a : CombineArchive) : a.is_equal a = true := by
  rw [CombineArchive.is_equal, are_lists_equal, if_neg (by simp)]
  exact zip_self_all_is_equal _

/-- C1: manifest round-trip.  Writing well-formed contents (non-null location
and format) with `write_manifest` (libcombine attaching no diagnostics) and
reading the written file back with `read_manifest` yields exactly the original
contents — in particular a list equal to the original under the null-tolerant
sorted comparison `CombineArchive.is_equal`. -/
theorem write_read_manifest_roundtrip
    (contents : List CombineArchiveContent) (validate : Bool) (af : Option String)
    (zipRun : Except Unit (List CombineArchiveContent))
    (hwf : ∀ c ∈ contents, c.location ≠ Option.none ∧ c.format ≠ Option.none) :
    ∃ m : CaOmexManifest,
      write_manifest contents [] = Except.ok m ∧
      read_manifest validate af (some m) zipRun {} = Except.ok (contents, {}) ∧
      CombineArchive.is_equal ⟨contents⟩ ⟨contents⟩ = true := by
  refine ⟨⟨contents.map content_to_libcombine, []⟩, write_manifest_ok contents, ?_,
    is_equal_refl ⟨contents⟩⟩
  rw [read_manifest_clean validate af zipRun {} _ rfl]
  rw [show (⟨contents.map content_to_libcombine, []⟩ : CaOmexManifest).contents
      = contents.map content_to_libcombine from rfl]
  rw [map_parse_map_to_libcombine]

/-- Witness for C1, on a two-entry manifest (the archive self-reference and a
Smoldyn model). -/
theorem write_read_manifest_roundtrip_witness :
    (∀ c ∈ [(⟨some ".", some "http://identifiers.org/combine.specifications/omex", false⟩ : CombineArchiveContent),
            ⟨some "model.txt", some "http://purl.org/NET/mediatypes/text/smoldyn+plain", true⟩],
        c.location ≠ Option.none ∧ c.format ≠ Option.none) ∧
    ∃ m : CaOmexManifest,
      write_manifest
          [⟨some ".", some "http://identifiers.org/combine.specifications/omex", false⟩,
           ⟨some "model.txt", some "http://purl.org/NET/mediatypes/text/smoldyn+plain", true⟩] []
        = Except.ok m ∧
      read_manifest true Option.none (some m) (Except.error ()) {}
        = Except.ok ([⟨some ".", some "http://identifiers.org/combine.specifications/omex", false⟩,
            ⟨some "model.txt", some "http://purl.org/NET/mediatypes/text/smoldyn+plain", true⟩], {}) ∧
      CombineArchive.is_equal
          ⟨[⟨some ".", some "http://identifiers.org/combine.specifications/omex", false⟩,
            ⟨some "model.txt", some "http://purl.org/NET/mediatypes/text/smoldyn+plain", true⟩]⟩
          ⟨[⟨some ".", some "http://identifiers.org/combine.specifications/omex", false⟩,
            ⟨some "model.txt", some "http://purl.org/NET/mediatypes/text/smoldyn+plain", true⟩]⟩ = true :=
  ⟨by decide,
   write_read_manifest_roundtrip _ true Option.none (Except.error ()) (by decide)⟩

lemma pyDictSet_mem_self (d : List (String × String)) (k v : String) :
    (k, v) ∈ pyDictSet d k v := by
  by_cases h : (d.any fun p => p.1 == k) = true
  · rw [pyDictSet, if_pos h]
    obtain ⟨p, hp, hk⟩ := List.any_eq_true.mp h
    refine List.mem_map.mpr ⟨p, hp, ?_⟩
    rw [if_pos hk]
  · rw [pyDictSet, if_neg h]
    exact List.mem_append_right _ (List.mem_singleton.mpr rfl)

lemma fold_manifest_keeps_entry (values : List String) :
    ∀ (acc : List String) (d : List (String × String)),
      (∃ w, ("manifest", w) ∈ d ∧ strContains w "manifest" = true) →
      ∃ w, ("manifest", w) ∈ (values.foldl manifestStep (acc, d)).2
        ∧ strContains w "manifest" = true := by
  induction values with
  | nil => intro acc d h; simpa using h
  | cons v rest ih =>
    intro acc d h
    rw [List.foldl_cons, manifestStep]
    by_cases hv : strContains v "manifest" = true
    · rw [if_pos hv]
      exact ih _ _ ⟨v, pyDictSet_mem_self d "manifest" v, hv⟩
    · rw [if_neg hv]
      exact ih _ _ h

lemma fold_manifest_establishes_entry (values : List String) :
    ∀ (acc : List String) (d : List (String × String)),
      values.filter (fun v => strContains v "manifest") ≠ [] →
      ∃ w, ("manifest", w) ∈ (values.foldl manifestStep (acc, d)).2
        ∧ strContains w "manifest" = true := by
  induction values with
  | nil => intro acc d h; simp at h
  | cons v rest ih =>
    intro acc d h
    rw [List.foldl_cons, manifestStep]
    by_cases hv : strContains v "manifest" = true
    · rw [if_pos hv]
      exact fold_manifest_keeps_entry rest _ _ ⟨v, pyDictSet_mem_self d "manifest" v, hv⟩
    · rw [if_neg hv]
      refine ih _ _ ?_
      rw [List.filter_cons, if_neg (by simp [hv])] at h
      exact h

lemma filter_values_ne_nil_of_entry (paths : List (String × String)) (w : String)
    (hmem : ("manifest", w) ∈ paths) (hw : strContains w "manifest" = true) :
    (paths.map fun p => p.2).filter (fun v => strContains v "manifest") ≠ [] := by
  intro hnil
  rw [List.filter_eq_nil_iff] at hnil
  exact hnil w (List.mem_map.mpr ⟨("manifest", w), hmem, rfl⟩) hw

lemma get_manifest_filepath_eq_ok (paths : List (String × String))
    (v : String) (rest : List String)
    (h : (paths.map fun p => p.2).filter (fun v => strContains v "manifest") = v :: rest) :
    get_manifest_filepath paths
      = Except.ok (v, ((paths.map fun p => p.2).foldl manifestStep ([], paths)).2) := by
  rw [get_manifest_filepath]
  have h1 := manifest_fold_fst (paths.map fun p => p.2) [] paths
  rw [h] at h1
  simp only [List.nil_append] at h1
  rw [h1, pySetList_cons]

lemma read_manifest_contents_clean (rootpath : String)
    (paths : List (String × String)) (validate : Bool) (m : CaOmexManifest)
    (zipRun : Except Unit (List CombineArchiveContent))
    (hm : (paths.map fun p => p.2).filter (fun v => strContains v "manifest") ≠ [])
    (hlog : m.log = []) :
    ∃ paths₁,
      read_manifest_contents rootpath paths validate (some m) zipRun
        = Except.ok (m.contents.map parse_content, paths₁)
      ∧ (paths₁.map fun p => p.2).filter (fun v => strContains v "manifest") ≠ [] := by
  rcases hf : (paths.map fun p => p.2).filter (fun v => strContains v "manifest") with
    _ | ⟨v, rest⟩
  · exact absurd hf hm
  · refine ⟨((paths.map fun p => p.2).foldl manifestStep ([], paths)).2, ?_, ?_⟩
    · rw [read_manifest_contents, get_manifest_filepath_eq_ok paths v rest hf,
        read_manifest_clean validate (some rootpath) zipRun {} m hlog]
    · obtain ⟨w, hwmem, hw⟩ :=
        fold_manifest_establishes_entry (paths.map fun p => p.2) [] paths (by rw [hf]; simp)
      exact filter_values_ne_nil_of_entry _ w hwmem hw

/-- C10: every exception raised inside the `try` block of
`add_file_to_manifest` — locating the manifest path again or writing the
updated manifest — is caught: the method emits the warning and returns `None`
exactly as on success, so a failed registration is indistinguishable from a
successful one by return value; the manifest file is left unchanged. -/
theorem add_file_to_manifest_swallows_write_failure
    (rootpath : String) (paths paths₁ : List (String × String)) (validate : Bool)
    (fileContent : Option CaOmexManifest)
    (zipRun : Except Unit (List CombineArchiveContent))
    (buildLog : List (String × Bool)) (fp : String)
    (cs : List CombineArchiveContent) (e : PyErr)
    (hread : read_manifest_contents rootpath paths validate fileContent zipRun
        = Except.ok (cs, paths₁))
    (hwrite : write_manifest (cs ++ [generate_new_archive_content fp]) buildLog
        = Except.error e) :
    add_file_to_manifest rootpath paths validate fileContent zipRun buildLog fp
      = Except.ok { written := Option.none, warned := true } := by
  rw [add_file_to_manifest, hread]
  rcases hg : get_manifest_filepath paths₁ with e' | r
  · simp [hg]
  · simp [hg, hwrite]

/-- Witness for C10: a registration whose manifest write raises `ValueError`
(libcombine reports an error on the constructed manifest) returns normally
with the warning emitted. -/
theorem add_file_to_manifest_swallows_write_failure_witness :
    add_file_to_manifest "r" [("manifest.xml", "r/manifest.xml")] true
        (some ⟨[], []⟩) (Except.error ()) [("bad attribute", true)] "out.simularium"
      = Except.ok { written := Option.none, warned := true } :=
  add_file_to_manifest_swallows_write_failure "r" _
    (pyDictSet [("manifest.xml", "r/manifest.xml")] "manifest" "r/manifest.xml")
    true _ _ _ "out.simularium" [] PyErr.valueError (by rfl) (by rfl)

/-- C2: append-only registration.  On an archive whose path index locates a
manifest and whose manifest file parses cleanly, a successful
`add_file_to_manifest fp` (libcombine attaching no diagnostics to the rewritten
manifest) writes a new manifest file; re-reading that file yields all
previously-present entries unchanged followed by exactly one new entry with
location `fp`, format `None` and master `False`
(`generate_new_archive_content fp`). -/
theorem add_file_to_manifest_appends
    (rootpath : String) (paths : List (String × String)) (validate : Bool)
    (m : CaOmexManifest) (zipRun : Except Unit (List CombineArchiveContent))
    (fp : String)
    (hm : (paths.map fun p => p.2).filter (fun v => strContains v "manifest") ≠ [])
    (hlog : m.log = []) :
    ∃ m' : CaOmexManifest,
      add_file_to_manifest rootpath paths validate (some m) zipRun [] fp
          = Except.ok { written := some m', warned := false } ∧
      ∀ (validate' : Bool) (af' : Option String)
        (zipRun' : Except Unit (List CombineArchiveContent)),
        read_manifest validate' af' (some m') zipRun' {}
          = Except.ok
              ((m.contents.map parse_content) ++ [generate_new_archive_content fp],
                {}) := by
  obtain ⟨paths₁, hrmc, hm₁⟩ :=
    read_manifest_contents_clean rootpath paths validate m zipRun hm hlog
  refine ⟨⟨((m.contents.map parse_content) ++ [generate_new_archive_content fp]).map
      content_to_libcombine, []⟩, ?_, ?_⟩
  · rw [add_file_to_manifest, hrmc]
    rcases hf₁ : (paths₁.map fun p => p.2).filter (fun v => strContains v "manifest") with
      _ | ⟨v, rest⟩
    · exact absurd hf₁ hm₁
    · simp only [get_manifest_filepath_eq_ok paths₁ v rest hf₁, write_manifest_ok]
  · intro validate' af' zipRun'
    rw [read_manifest_clean validate' af' zipRun' {} _ rfl]
    rw [show (⟨((m.contents.map parse_content) ++ [generate_new_archive_content fp]).map
        content_to_libcombine, []⟩ : CaOmexManifest).contents
      = ((m.contents.map parse_content) ++ [generate_new_archive_content fp]).map
          content_to_libcombine from rfl]
    rw [map_parse_map_to_libcombine]

/-- Witness for C2, scenario B: registering `result.simularium` on the
three-entry manifest `[(".", omex, false), ("model.txt", smoldyn, false),
("simulation.sedml", sedml, true)]` yields a four-entry manifest whose fourth
entry has location `result.simularium`, format `None`, master `False`, with
entries 1-3 unchanged. -/
theorem add_file_to_manifest_appends_witness :
    ∃ m' : CaOmexManifest,
      add_file_to_manifest "a" [("manifest.xml", "a/manifest.xml")] true
          (some ⟨[⟨some ".", some "http://identifiers.org/combine.specifications/omex", some false⟩,
                  ⟨some "model.txt", some "http://purl.org/NET/mediatypes/text/smoldyn+plain", some false⟩,
                  ⟨some "simulation.sedml", some "http://identifiers.org/combine.specifications/sed-ml", some true⟩],
                 []⟩)
          (Except.error ()) [] "result.simularium"
        = Except.ok { written := some m', warned := false } ∧
      ∀ (validate' : Bool) (af' : Option String)
        (zipRun' : Except Unit (List CombineArchiveContent)),
        read_manifest validate' af' (some m') zipRun' {}
          = Except.ok
              ([⟨some ".", some "http://identifiers.org/combine.specifications/omex", false⟩,
                ⟨some "model.txt", some "http://purl.org/NET/mediatypes/text/smoldyn+plain", false⟩,
                ⟨some "simulation.sedml", some "http://identifiers.org/combine.specifications/sed-ml", true⟩,
                ⟨some "result.simularium", Option.none, false⟩], {}) :=
  add_file_to_manifest_appends "a" [("manifest.xml", "a/manifest.xml")] true
    _ (Except.error ()) "result.simularium" (by decide) rfl

lemma find?_map_update (k v : String) :
    ∀ d : List (String × String), (d.any fun p => p.1 == k) = true →
      (d.map fun p => if p.1 == k then (k, v) else p).find? (fun p => p.1 == k)
        = some (k, v) := by
  intro d
  induction d with
  | nil => intro h; simp at h
  | cons p d ih =>
    intro h
    rw [List.map_cons]
    by_cases hk : (p.1 == k) = true
    · rw [if_pos hk, List.find?_cons_of_pos _ (by simp)]
    · rw [if_neg hk, List.find?_cons_of_neg _ (by simpa using hk)]
      refine ih ?_
      rcases List.any_eq_true.mp h with ⟨q, hq, hqk⟩
      rcases List.mem_cons.mp hq with rfl | hq'
      · exact absurd hqk (by simpa using hk)
      · exact List.any_eq_true.mpr ⟨q, hq', hqk⟩

lemma find?_append_single (k v : String) :
    ∀ d : List (String × String), (d.any fun p => p.1 == k) = false →
      (d ++ [(k, v)]).find? (fun p => p.1 == k) = some (k, v) := by
  intro d
  induction d with
  | nil =>
    intro _
    rw [List.nil_append]
    exact List.find?_cons_of_pos _ (by simp)
  | cons p d ih =>
    intro h
    rw [List.any_cons, Bool.or_eq_false_iff] at h
    rw [List.cons_append, List.find?_cons_of_neg _ (by simp [h.1])]
    exact ih h.2

lemma pyDictGet_set_self (d : List (String × String)) (k v : String) :
    pyDictGet (pyDictSet d k v) k = some v := by
  rw [pyDictGet, pyDictSet]
  by_cases h : (d.any fun p => p.1 == k) = true
  · rw [if_pos h, find?_map_update k v d h]
    rfl
  · rw [if_neg h, find?_append_single k v d (Bool.not_eq_true _ ▸ h)]
    rfl

lemma find?_map_update_ne (k v k' : String) (hne : k' ≠ k) :
    ∀ d : List (String × String),
      (d.map fun p => if p.1 == k then (k, v) else p).find? (fun p => p.1 == k')
        = d.find? (fun p => p.1 == k') := by
  have hkk' : ((k : String) == k') = false := by
    simp only [beq_eq_false_iff_ne]
    exact fun hh => hne hh.symm
  intro d
  induction d with
  | nil => simp
  | cons p d ih =>
    rw [List.map_cons]
    by_cases hk : (p.1 == k) = true
    · have hpk : p.1 = k := by simpa using hk
      have hp : (p.1 == k') = false := by rw [hpk]; exact hkk'
      rw [if_pos hk, List.find?_cons_of_neg _ (by simp [hkk']),
        List.find?_cons_of_neg _ (by simp [hp]), ih]
    · by_cases hp : (p.1 == k') = true
      · rw [if_neg hk]
        simp only [List.find?_cons, hp]
      · rw [if_neg hk, List.find?_cons_of_neg _ (by simpa using hp),
          List.find?_cons_of_neg _ (by simpa using hp), ih]

lemma pyDictGet_set_ne (d : List (String × String)) (k v k' : String) (hne : k' ≠ k) :
    pyDictGet (pyDictSet d k v) k' = pyDictGet d k' := by
  have hkk' : ((k : String) == k') = false := by
    simp only [beq_eq_false_iff_ne]
    exact fun hh => hne hh.symm
  rw [pyDictGet, pyDictGet, pyDictSet]
  by_cases h : (d.any fun p => p.1 == k) = true
  · rw [if_pos h, find?_map_update_ne k v k' hne d]
  · rw [if_neg h, List.find?_append]
    rcases hf : d.find? (fun p => p.1 == k') with _ | q
    · simp [hf, List.find?, hkk']
    · simp [hf]

lemma inner_fold_preserve (root f : String) :
    ∀ (files : List String) (d : List (String × String)), f ∉ files →
      pyDictGet (files.foldl (fun paths g => pyDictSet paths g (joinPath root g)) d) f
        = pyDictGet d f := by
  intro files
  induction files with
  | nil => intro d _; rfl
  | cons g rest ih =>
    intro d hf
    rw [List.foldl_cons, ih _ (fun hm => hf (List.mem_cons_of_mem _ hm)),
      pyDictGet_set_ne _ _ _ _ (fun he => hf (by rw [he]; exact List.mem_cons_self _ _))]

lemma inner_fold_mem (root f : String) :
    ∀ (files : List String) (d : List (String × String)), f ∈ files →
      pyDictGet (files.foldl (fun paths g => pyDictSet paths g (joinPath root g)) d) f
        = some (joinPath root f) := by
  intro files
  induction files with
  | nil => intro d hf; simp at hf
  | cons g rest ih =>
    intro d hf
    rw [List.foldl_cons]
    by_cases hr : f ∈ rest
    · exact ih _ hr
    · have hfg : f = g := by
        rcases List.mem_cons.mp hf with h | h
        · exact h
        · exact absurd h hr
      subst hfg
      rw [inner_fold_preserve root f rest _ hr, pyDictGet_set_self]

lemma recordDir_root (d : List (String × String)) (rf : String × List String)
    (h : "root" ∉ rf.2) :
    pyDictGet (recordDir d rf) "root" = some rf.1 := by
  rw [recordDir, inner_fold_preserve rf.1 "root" rf.2 _ h, pyDictGet_set_self]

lemma recordDir_preserve (d : List (String × String)) (rf : String × List String)
    (f : String) (hf : f ≠ "root") (h : f ∉ rf.2) :
    pyDictGet (recordDir d rf) f = pyDictGet d f := by
  rw [recordDir, inner_fold_preserve rf.1 f rf.2 _ h, pyDictGet_set_ne _ _ _ _ hf]

lemma recordDir_file (d : List (String × String)) (rf : String × List String)
    (f : String) (h : f ∈ rf.2) :
    pyDictGet (recordDir d rf) f = some (joinPath rf.1 f) :=
  inner_fold_mem rf.1 f rf.2 _ h

lemma outer_fold_root :
    ∀ (es : List (String × List String)) (d0 : List (String × String)),
      es ≠ [] → (∀ e ∈ es, "root" ∉ e.2) →
      pyDictGet (es.foldl recordDir d0) "root" = es.getLast?.map (fun e => e.1) := by
  intro es
  induction es with
  | nil => intro d0 h _; exact absurd rfl h
  | cons e rest ih =>
    intro d0 _ hs
    rcases rest with _ | ⟨e', rest'⟩
    · rw [List.foldl_cons, List.foldl_nil,
        recordDir_root d0 e (hs e (List.mem_cons_self _ _))]
      rfl
    · rw [List.foldl_cons, List.getLast?_cons_cons,
        ih _ (by simp) (fun q hq => hs q (List.mem_cons_of_mem _ hq))]

lemma outer_fold_preserve (f : String) (hf : f ≠ "root") :
    ∀ (es : List (String × List String)) (d0 : List (String × String)),
      (∀ e ∈ es, f ∉ e.2) →
      pyDictGet (es.foldl recordDir d0) f = pyDictGet d0 f := by
  intro es
  induction es with
  | nil => intro d0 _; rfl
  | cons e rest ih =>
    intro d0 hs
    rw [List.foldl_cons, ih _ (fun q hq => hs q (List.mem_cons_of_mem _ hq)),
      recordDir_preserve d0 e f hf (hs e (List.mem_cons_self _ _))]

lemma outer_fold_file (f : String) (hf : f ≠ "root") :
    ∀ (es : List (String × List String)) (d0 : List (String × String)),
      (∃ e ∈ es, f ∈ e.2) →
      ∃ d' fs', (d', fs') ∈ es ∧ f ∈ fs'
        ∧ pyDictGet (es.foldl recordDir d0) f = some (joinPath d' f) := by
  intro es
  induction es with
  | nil => intro d0 h; simp at h
  | cons e rest ih =>
    intro d0 hex
    rw [List.foldl_cons]
    by_cases hrest : ∃ e' ∈ rest, f ∈ e'.2
    · obtain ⟨d', fs', hmem, hfm, hval⟩ := ih (recordDir d0 e) hrest
      exact ⟨d', fs', List.mem_cons_of_mem _ hmem, hfm, hval⟩
    · have hfe : f ∈ e.2 := by
        obtain ⟨e0, he0, hf0⟩ := hex
        rcases List.mem_cons.mp he0 with rfl | h0
        · exact hf0
        · exact absurd ⟨e0, h0, hf0⟩ hrest
      have hpres : ∀ e' ∈ rest, f ∉ e'.2 := by
        intro e' he' hmem
        exact hrest ⟨e', he', hmem⟩
      refine ⟨e.1, e.2, ?_, hfe, ?_⟩
      · exact List.mem_cons_self _ _
      · rw [outer_fold_preserve f hf rest _ hpres, recordDir_file d0 e f hfe]

lemma walk_ne_nil (root : String) (t : DirTree) : walk root t ≠ [] := by
  cases t
  rw [walk]
  exact List.cons_ne_nil _ _

/-- C9 (amended): for an existing directory tree containing no file literally
named `root`, the path index maps the synthetic key `"root"` to the **last**
directory visited by the walk (the top directory only when there are no
subdirectories), and maps every file name to the absolute path of a file with
that name under one of the walked directories (the last one walked when names
collide). -/
theorem get_all_archive_filepaths_amended (rootpath : String) (tree : DirTree)
    (hnoroot : ∀ e ∈ walk rootpath tree, "root" ∉ e.2) :
    pyDictGet (get_all_archive_filepaths true rootpath tree) "root"
        = (walk rootpath tree).getLast?.map (fun e => e.1) ∧
    ∀ d fs f, (d, fs) ∈ walk rootpath tree → f ∈ fs → f ≠ "root" →
      ∃ d' fs', (d', fs') ∈ walk rootpath tree ∧ f ∈ fs'
        ∧ pyDictGet (get_all_archive_filepaths true rootpath tree) f
            = some (joinPath d' f) := by
  rw [get_all_archive_filepaths, if_pos rfl]
  constructor
  · exact outer_fold_root (walk rootpath tree) [] (walk_ne_nil rootpath tree) hnoroot
  · intro d fs f hmem hf hfr
    exact outer_fold_file f hfr (walk rootpath tree) [] ⟨(d, fs), hmem, hf⟩

/-- Witness for C9's amended theorem, on the tree `a` containing the file
`m.txt` and the subdirectory `b` with the file `y.txt`. -/
theorem get_all_archive_filepaths_amended_witness :
    pyDictGet (get_all_archive_filepaths true "a"
        (.node ["m.txt"] [("b", .node ["y.txt"] [])])) "root"
      = (walk "a" (.node ["m.txt"] [("b", .node ["y.txt"] [])])).getLast?.map
          (fun e => e.1) ∧
    ∃ d' fs', (d', fs') ∈ walk "a" (.node ["m.txt"] [("b", .node ["y.txt"] [])])
      ∧ "y.txt" ∈ fs'
      ∧ pyDictGet (get_all_archive_filepaths true "a"
            (.node ["m.txt"] [("b", .node ["y.txt"] [])])) "y.txt"
          = some (joinPath d' "y.txt") := by
  have hw : walk "a" (.node ["m.txt"] [("b", .node ["y.txt"] [])])
      = [("a", ["m.txt"]), ("a/b", ["y.txt"])] := by
    with_unfolding_all rfl
  have h := get_all_archive_filepaths_amended "a"
    (.node ["m.txt"] [("b", .node ["y.txt"] [])]) (by rw [hw]; decide)
  exact ⟨h.1, h.2 "a/b" ["y.txt"] "y.txt" (by rw [hw]; decide) (by decide) (by decide)⟩

/-- C9 counterexample: on the tree `a` holding the file `x` and a subdirectory
`b` also holding a file `x`, the index maps `"root"` to the last walked
directory `a/b` (not the top directory `a`), and maps `"x"` to `a/b/x`, so the
file `a/x` is not indexed under its name. -/
theorem get_all_archive_filepaths_counterexample :
    pyDictGet (get_all_archive_filepaths true "a"
        (.node ["x"] [("b", .node ["x"] [])])) "root" = some "a/b" ∧
    pyDictGet (get_all_archive_filepaths true "a"
        (.node ["x"] [("b", .node ["x"] [])])) "x" = some "a/b/x" ∧
    ("a/b" ≠ "a" ∧ "a/b/x" ≠ "a/x") :=
  ⟨by with_unfolding_all rfl, by with_unfolding_all rfl, by decide⟩
